import Mathlib

/-
  Verification development for the BoloCalc-style sensitivity core
  (src/parameter.py and src/sensitivity.py).

  Shallow embedding conventions:
  * Python floats are modelled as exact rationals (ℚ); numpy per-frequency
    spectra and per-band vectors are lists of rationals.
  * Python values that can flow through a Parameter slot (float, int, bool,
    str, list, numpy array, None) are modelled by the inductive `PyV`.
  * Fallible code paths (exceptions, fatal `log.err` calls) are modelled with
    `Except String`.
  * `np.random.normal` draws are passed in explicitly as a list of rationals,
    making the sampling logic a deterministic function of the draws.
-/

namespace BoloCalc

/-- A Python value as stored in a Parameter slot (`_val`, `_avg`, `_med`,
`_std`).  `num` is a Python float, `int` a Python int, `str` a string,
`bool` a boolean, `arr` a numpy array (whose cells may themselves be floats
or strings, as happens for per-band vectors), `plist` a Python list of
floats, and `none` is Python's `None`. -/
inductive PyV where
  | num (q : ℚ)
  | int (n : ℤ)
  | str (s : String)
  | bool (b : Bool)
  | arr (l : List PyV)
  | plist (l : List ℚ)
  | none

/-- Whether a `PyV` is Python's `None` (the `x is None` test). -/
def PyV.isNone : PyV → Bool
  | PyV.none => true
  | _ => false

/-- Python `str.upper()` (ASCII, which covers every token the code compares). -/
def pyUpperStr (s : String) : String := String.mk (s.data.map Char.toUpper)

/-- Python `str.lower()` (ASCII). -/
def pyLowerStr (s : String) : String := String.mk (s.data.map Char.toLower)

/-- Python `str.strip()`: drop leading and trailing whitespace. -/
def pyStrip (s : String) : String :=
  String.mk (((s.data.dropWhile Char.isWhitespace).reverse.dropWhile
    Char.isWhitespace).reverse)

/-- parameter.py `Parameter._float_str_vals = ["NA", "BAND"]`, applied to a
single slot value: `str(x).upper() in self._float_str_vals`.  `str()` of a
float, int, bool, array or `None` is never `"NA"` or `"BAND"`, so only
string slots can match. -/
def isEmptyCheck : PyV → Bool
  | PyV.str s => pyUpperStr s == "NA" || pyUpperStr s == "BAND"
  | _ => false

/-- The state of a `Parameter` object (parameter.py lines 31-69):
`_mult_bands`, `_val`, `_avg`, `_med`, `_std`, the unit scale used by
`self.unit.to_SI`, and the `_min`/`_max` bounds.

`medAliasesAvg` records Python object identity: `_store_int` and
`_store_float_str` execute `self._med = self._avg` (parameter.py lines 275,
316 and 322), so `_med` and `_avg` are the *same* object; for a per-band
numpy array an in-place write `self._avg[band_id - 1] = x` then also moves
`self._med[band_id - 1]`.  In states built by the embedded constructors the
flag is set exactly at those lines and the two fields hold equal values; a
scalar rebinding `self._avg = x` breaks the aliasing. -/
structure Param where
  multBands : Bool
  val : PyV
  avg : PyV
  med : PyV
  std : PyV
  unitScale : ℚ
  pmin : Option ℚ
  pmax : Option ℚ
  medAliasesAvg : Bool

/-- Modelled from the spec: the `Unit` collaborator's `to_SI` "converting a
literal numeric value (scalar or array) from its declared unit into SI base
units"; modelled as multiplication by the unit's scale factor. -/
def toSI (u : ℚ) (v : ℚ) : ℚ := u * v

/-- Read one band's slot out of a (possibly per-band) attribute: the Python
expression `attr[band_id - 1]` when `_mult_bands`, or `attr` itself when not.
Band ids are 1-indexed; a missing index raises `IndexError`, subscripting a
non-array raises `TypeError`. -/
def readCell (mult : Bool) (v : PyV) (b : Nat) : Except String PyV :=
  if mult then
    match v with
    | PyV.arr l =>
        match l.get? (b - 1) with
        | some c => Except.ok c
        | Option.none => Except.error "IndexError: list index out of range"
    | _ => Except.error "TypeError: object is not subscriptable"
  else Except.ok v

/-- Write one band's slot of a (possibly per-band) attribute: the Python
statement `attr[band_id - 1] = c` when `_mult_bands`, or `attr = c` when
not. -/
def writeCell (mult : Bool) (v : PyV) (b : Nat) (c : PyV) : Except String PyV :=
  if mult then
    match v with
    | PyV.arr l =>
        if b - 1 < l.length then Except.ok (PyV.arr (l.set (b - 1) c))
        else Except.error "IndexError: list assignment index out of range"
    | _ => Except.error "TypeError: object does not support item assignment"
  else Except.ok c

/-- Embeds `Parameter.fetch` (parameter.py lines 72-88): return `(avg, med, std)`
for the band, or `(val, val, 'NA')` when the parameter stores a raw value
and no average. -/
def fetch (p : Param) (b : Nat) : Except String (PyV × PyV × PyV) :=
  if !p.val.isNone && p.avg.isNone then
    Except.ok (p.val, p.val, PyV.str "NA")
  else if p.multBands then do
    let a ← readCell true p.avg b
    let m ← readCell true p.med b
    let s ← readCell true p.std b
    Except.ok (a, m, s)
  else Except.ok (p.avg, p.med, p.std)

/-- Embeds `Parameter.get_med` (parameter.py lines 171-178): `self.fetch(band_id)[1]`. -/
def get_med (p : Param) (b : Nat) : Except String PyV :=
  (fetch p b).map (fun t => t.2.1)

/-- Python's `str.capitalize` applied after `str.lower`: first character
uppercased, rest lowered (already lowered here). -/
def pyCapitalize (s : String) : String :=
  match s.data with
  | [] => ""
  | c :: cs => String.mk (c.toUpper :: cs)

/-- Embeds `Parameter._store_bool` (parameter.py lines 258-268): parse
`inp.lower().capitalize().strip()` as a boolean, fatal error otherwise.
`_avg`, `_med`, `_std` are all set to `None`. -/
def store_bool (u : ℚ) (mn mx : Option ℚ) (inp : String) : Except String Param :=
  let v := pyStrip (pyCapitalize (pyLowerStr inp))
  if v == "True" then
    Except.ok ⟨false, PyV.bool true, PyV.none, PyV.none, PyV.none, u, mn, mx, false⟩
  else if v == "False" then
    Except.ok ⟨false, PyV.bool false, PyV.none, PyV.none, PyV.none, u, mn, mx, false⟩
  else Except.error "Failed to parse boolean input"

/-- Embeds `Parameter._store_int` (parameter.py lines 270-281): `_val = None`,
`_avg = int(inp)`, `_med = _avg`, `_std = 0.`.  The argument is the already
cast integer (an uncastable input is a fatal error before this point). -/
def store_int (u : ℚ) (mn mx : Option ℚ) (n : ℤ) : Param :=
  ⟨false, PyV.none, PyV.int n, PyV.int n, PyV.num 0, u, mn, mx, true⟩

/-- Embeds `Parameter._store_str` (parameter.py lines 468-474): `_val = str(inp)`,
`_avg = _med = _std = None`. -/
def store_str (u : ℚ) (mn mx : Option ℚ) (s : String) : Param :=
  ⟨false, PyV.str s, PyV.none, PyV.none, PyV.none, u, mn, mx, false⟩

/-- Embeds `Parameter._store_list` (parameter.py lines 456-466): `_val = eval(inp)`
(the argument is the already evaluated list of floats),
`_avg = _med = _std = None`. -/
def store_list (u : ℚ) (mn mx : Option ℚ) (l : List ℚ) : Param :=
  ⟨false, PyV.plist l, PyV.none, PyV.none, PyV.none, u, mn, mx, false⟩

/-- C4 counterexample helper: the integer-kind parameter built from the
value 3. -/
def intParam3 : Param := store_int 1 Option.none Option.none 3

/-- The parsed shape of one side of a float-kind literal, after the
`float()` / `np.array(eval())` try-chain in `Parameter._float`
(parameter.py lines 476-508) has classified it: a numeric scalar, a
bracketed numeric list, or a non-numeric word such as `NA` or `BAND`. -/
inductive FloatLit where
  | scalar (m : ℚ)
  | list1 (ms : List ℚ)
  | word (s : String)

/-- A float-kind input literal (parameter.py `_store_float_str`, lines
308-324): either a plain literal or a pair split on the spread delimiter (plus, slash, minus). -/
inductive FloatInp where
  | plain (l : FloatLit)
  | spread (lhs rhs : FloatLit)

/-- Embeds `Parameter._float` (parameter.py lines 476-508): a numeric scalar is
converted to SI units (`_mult_bands := False`); a numeric list is converted
elementwise (`_mult_bands := True`); anything else is accepted only if it
strips/uppercases to `"NA"` or `"BAND"` (returned stripped and uppercased,
`_mult_bands := False`), and is a fatal error otherwise.  Returns the stored
value together with the `_mult_bands` flag it sets. -/
def pfloat (u : ℚ) : FloatLit → Except String (PyV × Bool)
  | FloatLit.scalar m => Except.ok (PyV.num (toSI u m), false)
  | FloatLit.list1 ms => Except.ok (PyV.arr (ms.map (fun m => PyV.num (toSI u m))), true)
  | FloatLit.word s =>
      let r := pyUpperStr (pyStrip s)
      if r == "NA" || r == "BAND" then Except.ok (PyV.str r, false)
      else Except.error "cannot be type casted to float"

/-- Embeds `Parameter._zero` (parameter.py lines 510-515): `np.zeros(len(val))`
when `len(val)` succeeds — which it does for arrays, lists AND strings
(`len("NA") = 2`) — and the scalar `0.` otherwise. -/
def pzero : PyV → PyV
  | PyV.arr l => PyV.arr (List.replicate l.length (PyV.num 0))
  | PyV.plist l => PyV.arr (List.replicate l.length (PyV.num 0))
  | PyV.str s => PyV.arr (List.replicate s.length (PyV.num 0))
  | _ => PyV.num 0

/-- Embeds `Parameter._store_float_str` (parameter.py lines 308-324): with the
spread delimiter present, `_avg`/`_med` come from the left side and `_std` from the
right side (note: no length comparison between the two sides); without it,
`_std = self._zero(self._avg)`.  `_mult_bands` is whatever the LAST call to
`self._float` set it to.  Both branches execute `self._med = self._avg`
(lines 316 and 322), making `_med` the same object as `_avg`
(`medAliasesAvg := true`); `_std` is a fresh object in both branches. -/
def store_float_str (u : ℚ) (mn mx : Option ℚ) : FloatInp → Except String Param
  | FloatInp.spread lhs rhs => do
      let (a, _) ← pfloat u lhs
      let (s, mb) ← pfloat u rhs
      Except.ok ⟨mb, PyV.none, a, a, s, u, mn, mx, true⟩
  | FloatInp.plain l => do
      let (a, mb) ← pfloat u l
      Except.ok ⟨mb, PyV.none, a, a, pzero a, u, mn, mx, true⟩

/-- One cell compared against a scalar bound, as `np.any(avg < min)` does
elementwise over a numeric array. -/
def cellLtBound (m : ℚ) : PyV → Bool
  | PyV.num q => q < m
  | PyV.int n => (n : ℚ) < m
  | _ => false

/-- As `cellLtBound`, for `np.any(avg > max)`. -/
def cellGtBound (m : ℚ) : PyV → Bool
  | PyV.num q => m < q
  | PyV.int n => m < (n : ℚ)
  | _ => false

/-- Embeds `Parameter._check_range` (parameter.py lines 517-533): skipped when
`_avg` is `None` or a string; otherwise any average below `_min` or above
`_max` is a fatal error. -/
def check_range (p : Param) : Except String Unit :=
  match p.avg with
  | PyV.none => Except.ok ()
  | PyV.str _ => Except.ok ()
  | PyV.arr l =>
      if (match p.pmin with | some m => l.any (cellLtBound m) | Option.none => false) then
        Except.error "lower than the minimum allowed value"
      else if (match p.pmax with | some m => l.any (cellGtBound m) | Option.none => false) then
        Except.error "greater than the maximum allowed value"
      else Except.ok ()
  | v =>
      if (match p.pmin with | some m => cellLtBound m v | Option.none => false) then
        Except.error "lower than the minimum allowed value"
      else if (match p.pmax with | some m => cellGtBound m v | Option.none => false) then
        Except.error "greater than the maximum allowed value"
      else Except.ok ()

/-- Construction of a float-kind Parameter from a string literal: `__init__`
stores the value (`_store_param` → `_store_float` → `_store_float_str`) and
then runs `_check_range` (parameter.py lines 66-69). -/
def construct_float_str (u : ℚ) (mn mx : Option ℚ) (inp : FloatInp) :
    Except String Param := do
  let p ← store_float_str u mn mx inp
  let _ ← check_range p
  Except.ok p

/-- The length of an array slot (used to compare the stored per-band mean
and std vectors). -/
def pyLen : PyV → Nat
  | PyV.arr l => l.length
  | PyV.plist l => l.length
  | PyV.str s => s.length
  | _ => 0

/-- Round-half-even of an exact rational to an integer (the tie-breaking
rule of Python's builtin `round`; floats are modelled as exact rationals). -/
def roundHalfEven (x : ℚ) : ℤ :=
  let f := ⌊x⌋
  let r := x - f
  if r < 1 / 2 then f
  else if 1 / 2 < r then f + 1
  else if f % 2 = 0 then f else f + 1

/-- Python `round(x, n)` on an exact rational: round-half-even at `n`
decimal digits (`n` may be negative). -/
def pyRound (x : ℚ) (n : ℤ) : ℚ :=
  if 0 ≤ n then (roundHalfEven (x * 10 ^ n.toNat) : ℚ) / 10 ^ n.toNat
  else (roundHalfEven (x / 10 ^ (-n).toNat) : ℚ) * 10 ^ (-n).toNat

/-- Helper for the floor of log10: for `1 ≤ a`, counts how often `a` can be
divided by 10 before dropping below 10.  `fuel` bounds the recursion. -/
def countUp (fuel : Nat) (a : ℚ) : ℤ :=
  if fuel = 0 then 0
  else if a < 10 then 0
  else countUp (fuel - 1) (a / 10) + 1
termination_by fuel
decreasing_by simp_wf; omega

/-- Helper for the floor of log10: for `0 < a < 1`, counts how often `a`
must be multiplied by 10 to reach 1.  `fuel` bounds the recursion. -/
def countDown (fuel : Nat) (a : ℚ) : ℤ :=
  if fuel = 0 then -1
  else if 1 ≤ a * 10 then -1
  else countDown (fuel - 1) (a * 10) - 1
termination_by fuel
decreasing_by simp_wf; omega

/-- Exact `int(np.floor(np.log10(a)))` for a positive rational `a`
(parameter.py line 539; the float log of the source is modelled exactly). -/
def log10floorQ (a : ℚ) : ℤ :=
  if 1 ≤ a then countUp a.num.natAbs a else countDown a.den a

/-- Embeds `Parameter._sig_figs` (parameter.py lines 535-539):
`round(inp, sig - int(floor(log10(abs(inp)))) - 1)`, with `0` mapped to
itself. -/
def sig_figs (inp : ℚ) (sig : ℕ) : ℚ :=
  if inp = 0 then inp else pyRound inp ((sig : ℤ) - log10floorQ |inp| - 1)

/-- Python `x.upper()` on a slot value: succeeds only for strings
(`AttributeError` otherwise). -/
def pyUpperCell : PyV → Except String String
  | PyV.str s => Except.ok (pyUpperStr s)
  | _ => Except.error "AttributeError: object has no attribute upper"

/-- Numeric content of a slot as needed by `_sig_figs`'s `round` call:
floats and ints succeed, anything else raises `TypeError`. -/
def pyFloatCell : PyV → Except String ℚ
  | PyV.num q => Except.ok q
  | PyV.int n => Except.ok (n : ℚ)
  | _ => Except.error "TypeError: argument does not support rounding"

/-- An argument to `Parameter.change`: a string, or a numeric value (any
other input type is a fatal error, parameter.py lines 152-155). -/
inductive ChangeArg where
  | str (s : String)
  | num (q : ℚ)

/-- Embeds the Python statement `self._avg[band_id - 1] = c` (per-band) or
`self._avg = c` (scalar) of `Parameter.change`.  In the per-band case the
write mutates the array in place, so when `_med` is the same object as
`_avg` (`medAliasesAvg`) the median slot moves with it (the two fields are
kept in step, representing the one shared array).  A scalar assignment
rebinds `_avg` to a new object, which ends any aliasing with `_med`. -/
def writeAvg (p : Param) (b : Nat) (c : PyV) : Except String Param :=
  if p.multBands then
    match writeCell true p.avg b c with
    | Except.error e => Except.error e
    | Except.ok a1 =>
        if p.medAliasesAvg then Except.ok { p with avg := a1, med := a1 }
        else Except.ok { p with avg := a1 }
  else Except.ok { p with avg := c, medAliasesAvg := false }

/-- Embeds `Parameter.change` (parameter.py lines 90-156).  A string input
overwrites the (string) slot when it differs case-insensitively.  A numeric
input is converted to SI units; a sentinel slot is overwritten
unconditionally (lines 120-127, with an early return that skips the std
update); otherwise the average — and, when `new_std` is given, the std —
is overwritten only when it differs from the stored value at 5 significant
figures.  Average writes go through `writeAvg` (so a per-band in-place
write also moves an aliased `_med`); `_std` is never the same object as
`_avg`/`_med` in states built by the embedded constructors, so std writes
touch only the std slot.  Returns the updated state and the `ret_bool`
commit flag. -/
def change (p : Param) (arg : ChangeArg) (newStd : Option ℚ) (b : Nat) :
    Except String (Param × Bool) :=
  match arg with
  | ChangeArg.str s =>
      match readCell p.multBands p.avg b with
      | Except.error e => Except.error e
      | Except.ok c =>
          match pyUpperCell c with
          | Except.error e => Except.error e
          | Except.ok s0 =>
              if s0 ≠ pyUpperStr s then
                match writeAvg p b (PyV.str s) with
                | Except.error e => Except.error e
                | Except.ok p1 => Except.ok (p1, true)
              else Except.ok (p, false)
  | ChangeArg.num v =>
      let avgNew := toSI p.unitScale v
      match readCell p.multBands p.avg b with
      | Except.error e => Except.error e
      | Except.ok c =>
          if isEmptyCheck c then
            match writeAvg p b (PyV.num avgNew) with
            | Except.error e => Except.error e
            | Except.ok p1 => Except.ok (p1, true)
          else
            match pyFloatCell c with
            | Except.error e => Except.error e
            | Except.ok a0 =>
                match (if sig_figs avgNew 5 ≠ sig_figs a0 5 then
                        match writeAvg p b (PyV.num avgNew) with
                        | Except.error e => Except.error e
                        | Except.ok p1 => Except.ok (p1, true)
                      else Except.ok (p, false) :
                        Except String (Param × Bool)) with
                | Except.error e => Except.error e
                | Except.ok p1r =>
                    match newStd with
                    | Option.none => Except.ok p1r
                    | some sv =>
                        let stdNew := toSI p.unitScale sv
                        match readCell p1r.1.multBands p1r.1.std b with
                        | Except.error e => Except.error e
                        | Except.ok sc =>
                            match pyFloatCell sc with
                            | Except.error e => Except.error e
                            | Except.ok s0 =>
                                if sig_figs stdNew 5 ≠ sig_figs s0 5 then
                                  match writeCell p1r.1.multBands p1r.1.std b
                                      (PyV.num stdNew) with
                                  | Except.error e => Except.error e
                                  | Except.ok s1 =>
                                      Except.ok ({ p1r.1 with std := s1 }, true)
                                else Except.ok p1r

/-- A sequence of `change` calls, stopping at the first fatal error. -/
def applyChanges (p : Param) : List (ChangeArg × Option ℚ × Nat) → Except String Param
  | [] => Except.ok p
  | op :: rest => do
      let r ← change p op.1 op.2.1 op.2.2
      applyChanges r.1 rest

/-- Embeds `str(self._avg).strip().upper()` (parameter.py line 208) for a
sentinel-valued parameter.  When `_mult_bands` is set, `str()` of the whole
list is returned in Python; that shape is unreachable for the literal-built
states considered here and is left unmodelled. -/
def emptyRepr (p : Param) : Except String PyV :=
  match p.avg with
  | PyV.str s => Except.ok (PyV.str (pyUpperStr (pyStrip s)))
  | _ => Except.error "str() of a non-string average is not modelled"

/-- Embeds the test `std is "NA"` (parameter.py line 218): identity with the
interned `'NA'` literal that `fetch` returns in its no-average branch. -/
def stdIsNA : PyV → Bool
  | PyV.str s => s == "NA"
  | _ => false

/-- Embeds `np.any(std <= 0.)` (parameter.py line 218). -/
def anyLe0 : PyV → Bool
  | PyV.num q => q ≤ 0
  | PyV.int n => n ≤ 0
  | PyV.arr l => l.any (fun c => match c with
      | PyV.num q => q ≤ 0
      | PyV.int n => n ≤ 0
      | _ => false)
  | _ => false

/-- Numpy truthiness of `samp < min` (parameter.py line 228): a scalar
comparison yields a plain bool; a one-element array is truthy-testable; an
empty comparison array is falsy (with a deprecation warning); branching on
a multi-element boolean array raises `ValueError`. -/
def pyTruthLt (v : PyV) (m : ℚ) : Except String Bool :=
  match v with
  | PyV.num q => Except.ok (decide (q < m))
  | PyV.int n => Except.ok (decide ((n : ℚ) < m))
  | PyV.arr l =>
      match l with
      | [] => Except.ok false
      | [c] =>
          match c with
          | PyV.num q => Except.ok (decide (q < m))
          | _ => Except.error "TypeError: unorderable types"
      | _ :: _ :: _ => Except.error
          "ValueError: the truth value of an array with more than one element is ambiguous"
  | _ => Except.error "TypeError: unorderable types"

/-- Numpy truthiness of `samp > max` (parameter.py line 230). -/
def pyTruthGt (v : PyV) (m : ℚ) : Except String Bool :=
  match v with
  | PyV.num q => Except.ok (decide (m < q))
  | PyV.int n => Except.ok (decide (m < (n : ℚ)))
  | PyV.arr l =>
      match l with
      | [] => Except.ok false
      | [c] =>
          match c with
          | PyV.num q => Except.ok (decide (m < q))
          | _ => Except.error "TypeError: unorderable types"
      | _ :: _ :: _ => Except.error
          "ValueError: the truth value of an array with more than one element is ambiguous"
  | _ => Except.error "TypeError: unorderable types"

/-- Embeds the bound-defaulting at the top of `Parameter.sample`
(parameter.py lines 201-205): an explicitly passed bound wins, otherwise
the bound stored at construction applies. -/
def effBound (passed stored : Option ℚ) : Option ℚ :=
  match passed with
  | Option.none => stored
  | some m => some m

/-- Embeds the clamping tail of `Parameter.sample` (parameter.py lines
227-232): return `min` when the sample falls below it, `max` when above,
the sample otherwise. -/
def sampleClamp (samp : PyV) (mn mx : Option ℚ) : Except String PyV := do
  match mn with
  | some m => if (← pyTruthLt samp m) then return PyV.num m
  | Option.none => pure ()
  match mx with
  | some m => if (← pyTruthGt samp m) then return PyV.num m
  | Option.none => pure ()
  return samp

/-- Embeds `Parameter.sample` (parameter.py lines 189-232).  The gaussian
draws of `np.random.normal` are passed in explicitly as `draws` (their
length is `nsample`); `null` only changes the distribution the exogenous
draws come from, so it does not appear on the right-hand side.
Distribution-backed parameters (lines 210-211) are outside the modelled
state space: every parameter built by the literal grammar embedded here
stores `_val = None` or a string. -/
def sample (p : Param) (b nsample : Nat) (mn0 mx0 : Option ℚ)
    (null : Bool) (draws : List ℚ) : Except String PyV := do
  let mn := effBound mn0 p.pmin
  let mx := effBound mx0 p.pmax
  let c ← readCell p.multBands p.avg 1
  if isEmptyCheck c then
    emptyRepr p
  else do
    let vals ← fetch p b
    let avg := vals.1
    let std := vals.2.2
    if stdIsNA std || anyLe0 std then
      Except.ok avg
    else
      let _avgUsedForDraw := if null then PyV.num 0 else avg
      let samp := if nsample = 1 then PyV.num (draws.headD 0)
        else PyV.arr (draws.map PyV.num)
      sampleClamp samp mn mx

/-- Pointwise product of two per-frequency spectra (numpy elementwise `*`). -/
def vmul (a b : List ℚ) : List ℚ := List.zipWith (· * ·) a b

/-- Python `functools.reduce` with no initializer: a left fold seeded with
the first element; an empty input raises (never hit by the call sites
embedded here, which pass nonempty slices). -/
def pyReduce (l : List (List ℚ)) : Option (List ℚ) :=
  match l with
  | [] => Option.none
  | x :: xs => some (xs.foldl vmul x)

/-- A per-frequency row of ones, `np.array([1. for f in ch.freqs])`. -/
def onesRow (nf : Nat) : List ℚ := List.replicate nf 1

/-- A per-frequency row of zeros, `[0. for f in ch.freqs]`. -/
def zerosRow (nf : Nat) : List ℚ := List.replicate nf 0

/-- Embeds the efficiency-array buffering of sensitivity.py (lines 123-124
in `_opt_pow` and lines 403-405 in `_buffer_tran`): append a synthetic
unit-transmission row after the last element. -/
def buffer_tran (nf : Nat) (tran : List (List ℚ)) : List (List ℚ) :=
  tran ++ [onesRow nf]

/-- Embeds `cum_eff_det` of `Sensitivity._opt_pow` (sensitivity.py line
126): `ft.reduce(lambda x, y: x*y, eff_arr[k+1:])`. -/
def cum_eff_det (nf : Nat) (tran : List (List ℚ)) (k : Nat) : Option (List ℚ) :=
  pyReduce ((buffer_tran nf tran).drop (k + 1))

/-- Embeds `cum_eff_sky` of `Sensitivity._opt_pow` (sensitivity.py lines
128-141): zero elements sky side for `k = 0`, the `[ones, zeros]` bookends
for `k = 1`, and otherwise a reduced slice `eff_arr[m+1:k]` (or the single
row `eff_arr[m+1]` when `m = k-2`) for each upstream `m`, plus the
bookends. -/
def cum_eff_sky (nf : Nat) (tran : List (List ℚ)) (k : Nat) : List (List ℚ) :=
  if k = 0 then [zerosRow nf]
  else if k = 1 then [onesRow nf, zerosRow nf]
  else
    ((List.range (k - 1)).map (fun m =>
      if m < k - 2 then
        (pyReduce (((buffer_tran nf tran).drop (m + 1)).take (k - (m + 1)))).getD []
      else (buffer_tran nf tran).getD (m + 1) []))
    ++ [onesRow nf, zerosRow nf]

/-- The specification's wording of the toward-detector efficiency: for each
frequency, the product of the transmissions of all elements strictly
downstream of `k` (indices `k+1..L`, the synthetic terminal contributing a
factor 1). -/
def spec_eff_det (nf : Nat) (tran : List (List ℚ)) (k : Nat) : List ℚ :=
  (List.range nf).map (fun f => ((tran.drop (k + 1)).map (fun row => row.getD f 1)).prod)

/-- Embeds `Sensitivity._num_sky_elem` (sensitivity.py lines 417-428). -/
def num_sky_elem (site : String) (infg : Bool) : Nat :=
  if pyUpperStr site == "SPACE" then (if infg then 3 else 1)
  else (if infg then 4 else 2)

/-- Embeds the telescope-side slice `ch.elem[i][j][n_sky_elem:]` of
`Sensitivity._calc_rj_temp` (sensitivity.py lines 184-191). -/
def rj_tel_slice (n : Nat) (elems : List String) : List String := elems.drop n

/-- Embeds the sky-side slice `ch.elem[i][j][:n_sky_elem]` of
`Sensitivity._calc_rj_temp` (sensitivity.py lines 192-199). -/
def rj_sky_slice (n : Nat) (elems : List String) : List String := elems.take n

/-- Embeds `Sensitivity._calc_corr_deg` (sensitivity.py lines 295-299).
Both nested list comprehensions bind the name `i` (the inner one shadowing
the outer), and the expression `self._NET_corr[i][j] / self._NET[i][i]`
refers to a name `j` that is bound nowhere in the method; `jscope` models
the (absent) enclosing binding of `j`, so the method scope is
`jscope = none` and the lookup fails with `NameError`. -/
def calc_corr_deg (jscope : Option Nat) (NETcorr NET : List (List ℚ))
    (nobs ndet : Nat) : Except String (List (List ℚ)) :=
  match jscope with
  | Option.none => Except.error "NameError: name j is not defined"
  | some j => Except.ok ((List.range nobs).map (fun _o =>
      (List.range ndet).map (fun i =>
        ((NETcorr.getD i []).getD j 0) / ((NET.getD i []).getD i 0))))

/-- The attributes of the Sensitivity object touched by the array-NET stage
of `_sensitivity`: the inputs `_NET_corr` / `_NET_corr_RJ` (one value per
detector) and the outputs, modelled as `Option` since a Python attribute
that was never assigned does not exist (reading it raises
`AttributeError`). -/
structure SensState where
  NET_corr : List ℚ
  NET_corr_RJ : List ℚ
  NET_arr : Option (List ℚ)
  NET_arr_RJ : Option (List ℚ)

/-- Embeds `Sensitivity._calc_NET_arr` (sensitivity.py lines 281-286):
`self._NET_arr = noise.NET_arr(self._NET_corr, ...)`, with the Noise
collaborator's array combination abstracted as `netArrFn`. -/
def calc_NET_arr (netArrFn : List ℚ → List ℚ) (st : SensState) : SensState :=
  { st with NET_arr := some (netArrFn st.NET_corr) }

/-- Embeds `Sensitivity._calc_NET_arr_RJ` (sensitivity.py lines 288-293):
the assignment target in the source is `self._NET_arr` — not
`self._NET_arr_RJ` — applied to `self._NET_corr_RJ`. -/
def calc_NET_arr_RJ (netArrFn : List ℚ → List ℚ) (st : SensState) : SensState :=
  { st with NET_arr := some (netArrFn st.NET_corr_RJ) }

/-- The observable shape of a Parameter slot under per-band subscripting:
the array length when the slot is an array, nothing otherwise.  Two slots
of equal shape behave identically under `readCell` up to cell values. -/
def arrShape : PyV → Option Nat
  | PyV.arr l => some l.length
  | _ => Option.none

/-- The outcome (error or success) of subscripting a slot, as a function of
its shape: a `TypeError` for non-arrays, an `IndexError` out of range,
success otherwise. -/
def readErr (sh : Option Nat) (b : Nat) : Option String :=
  match sh with
  | Option.none => some "TypeError: object is not subscriptable"
  | some n => if b - 1 < n then Option.none else some "IndexError: list index out of range"

end BoloCalc

open BoloCalc

/-- C4: the claim states that for integer/string/list/boolean kinds,
`fetch(band_id)` returns `(value, value, "NA")`.  This fails for the integer
kind: `_store_int` stores the integer as `_avg` (with `_med = _avg` and
`_std = 0.`), so `fetch` takes the `(avg, med, std)` branch and returns
`(3, 3, 0.0)`, not `(3, 3, "NA")`. -/
theorem c4_counterexample :
    fetch intParam3 1 = Except.ok (PyV.int 3, PyV.int 3, PyV.num 0) ∧
      fetch intParam3 1 ≠ Except.ok (PyV.int 3, PyV.int 3, PyV.str "NA") := by
  refine ⟨rfl, ?_⟩
  intro h
  rw [show fetch intParam3 1 = Except.ok (PyV.int 3, PyV.int 3, PyV.num 0) from rfl] at h
  simp at h

/-- C4 (amended): for boolean, string and list kinds — the kinds whose
`_store_*` leaves `_avg = None` — `fetch` returns `(value, value, "NA")` for
every band id; for the integer kind, `_store_int` stores an average, so
`fetch` returns `(value, value, 0.0)` instead. -/
theorem c4_fetch_no_average (u : ℚ) (mn mx : Option ℚ) (b : Nat) (n : ℤ)
    (s bs : String) (l : List ℚ) (p : Param) :
    (store_bool u mn mx bs = Except.ok p →
      fetch p b = Except.ok (p.val, p.val, PyV.str "NA")) ∧
    fetch (store_str u mn mx s) b = Except.ok (PyV.str s, PyV.str s, PyV.str "NA") ∧
    fetch (store_list u mn mx l) b = Except.ok (PyV.plist l, PyV.plist l, PyV.str "NA") ∧
    fetch (store_int u mn mx n) b = Except.ok (PyV.int n, PyV.int n, PyV.num 0) := by
  refine ⟨?_, rfl, rfl, rfl⟩
  intro h
  simp only [store_bool] at h
  split at h
  · cases h; rfl
  · split at h
    · cases h; rfl
    · cases h

/-- C4 witness: the amended theorem applied at a concrete boolean input. -/
theorem c4_witness :
    ∃ p, store_bool 1 Option.none Option.none "true" = Except.ok p ∧
      fetch p 1 = Except.ok (p.val, p.val, PyV.str "NA") := by
  have hb : (pyStrip (pyCapitalize (pyLowerStr "true")) == "True") = true := by decide
  have hs : store_bool 1 Option.none Option.none "true" =
      Except.ok ⟨false, PyV.bool true, PyV.none, PyV.none, PyV.none, 1,
        Option.none, Option.none, false⟩ := by
    simp only [store_bool, hb, if_true]
  exact ⟨_, hs, (c4_fetch_no_average 1 Option.none Option.none 1 0 "" "true" [] _).1 hs⟩

/-- C5: the claim says a per-band literal with mismatched mean/std list
lengths fails fatally at construction.  On the plain-string path
(`_store_float_str`) there is no length comparison: construction of a
float-kind Parameter from the literal with mean list `[1.0, 2.0]` and std
list `[0.1]` succeeds, storing a length-2 average vector next to a length-1
std vector (the equal-length check exists only on the tuple path,
`_store_float_tuple`, parameter.py lines 363-376). -/
theorem c5_mismatched_lengths_accepted :
    (construct_float_str 1 Option.none Option.none
        (FloatInp.spread (FloatLit.list1 [1, 2]) (FloatLit.list1 [1 / 10]))).map
      (fun p => (p.multBands, pyLen p.avg, pyLen p.std)) =
      Except.ok (true, 2, 1) := rfl

/-- C1 counterexample: the claim says the sky-side element count is 1 or 2
when the site is ground.  In `_num_sky_elem`, a ground site with internal
foregrounds enabled yields 4. -/
theorem c1_counterexample :
    num_sky_elem "ground" true = 4 ∧
      num_sky_elem "ground" true ≠ 1 ∧ num_sky_elem "ground" true ≠ 2 := by
  exact ⟨rfl, by decide, by decide⟩

/-- C1 (amended): the count of leading sky-side elements that gates the
sky vs. telescope RJ-temperature split is 1 or 3 when the site is space and
2 or 4 otherwise (ground), the larger count of each pair applying exactly
when internal foreground/atmosphere layering (`infg`) is enabled; the
sky-side slice is the first `n_sky_elem` elements and the telescope-side
slice is the rest. -/
theorem c1_num_sky_elem_amended (site : String) (infg : Bool) (elems : List String) :
    ((pyUpperStr site == "SPACE") = true →
      num_sky_elem site infg = if infg then 3 else 1) ∧
    ((pyUpperStr site == "SPACE") = false →
      num_sky_elem site infg = if infg then 4 else 2) ∧
    rj_sky_slice (num_sky_elem site infg) elems ++
      rj_tel_slice (num_sky_elem site infg) elems = elems := by
  unfold num_sky_elem rj_sky_slice rj_tel_slice
  refine ⟨fun h => by rw [h]; simp, fun h => by rw [h]; simp,
    List.take_append_drop _ _⟩

/-- C1 witness: the amended theorem applied at a ground site with
foregrounds enabled and a space site without. -/
theorem c1_witness :
    num_sky_elem "Ground" true = 4 ∧ num_sky_elem "SPACE" false = 1 := by
  have h1 := (c1_num_sky_elem_amended "Ground" true []).2.1
  have h2 := (c1_num_sky_elem_amended "SPACE" false []).1
  exact ⟨by simpa using h1 (by decide), by simpa using h2 (by decide)⟩

/-- C3: running the array-NET stage of `_sensitivity` (lines 79-80) leaves
`_NET_arr_RJ` exactly as it started — it is never assigned, so on a fresh
object it does not exist and the result assembly at line 99 (and
`_calc_map_depth_RJ` at line 310) fails with `AttributeError` — while
`_NET_arr` ends up holding the RJ-variant array NET, overwriting the non-RJ
value stored by `_calc_NET_arr`.  This holds for every array-combination
collaborator `netArrFn` and every starting state. -/
theorem c3_NET_arr_RJ_never_stored (netArrFn : List ℚ → List ℚ) (st : SensState) :
    (calc_NET_arr_RJ netArrFn (calc_NET_arr netArrFn st)).NET_arr_RJ = st.NET_arr_RJ ∧
    (calc_NET_arr_RJ netArrFn (calc_NET_arr netArrFn st)).NET_arr =
      some (netArrFn st.NET_corr_RJ) :=
  ⟨rfl, rfl⟩

/-- C8: `_calc_corr_deg` cannot compute the claimed elementwise ratio.  In
the method scope the name `j` is unbound (both comprehension variables are
named `i`), so the call raises `NameError`; and even under an enclosing
binding of `j` (modelled as `jscope = some 1`), the entry at `[0][0]` would
be `NET_corr[0][1] / NET[0][0] = 2/5`, not the claimed
`NET_corr[0][0] / NET[0][0] = 1/5`. -/
theorem c8_corr_deg_code_bug :
    calc_corr_deg Option.none [[1, 2], [3, 4]] [[5, 6], [7, 8]] 2 2 =
      Except.error "NameError: name j is not defined" ∧
    (calc_corr_deg (some 1) [[1, 2], [3, 4]] [[5, 6], [7, 8]] 2 2).map
        (fun t => (t.getD 0 []).getD 0 0) = Except.ok ((2 : ℚ) / 5) ∧
    ((2 : ℚ) / 5) ≠ (1 : ℚ) / 5 := by
  refine ⟨rfl, rfl, by norm_num⟩

/-- C6 counterexample: a float-kind Parameter constructed from the literal
string `"NA"` does not return `"NA"` in every component of `fetch`: the std
slot holds `np.zeros(len("NA")) = [0., 0.]` (a numeric array), because
`_zero` applies `len` to the stored string. -/
theorem c6_counterexample :
    (store_float_str 1 Option.none Option.none
        (FloatInp.plain (FloatLit.word "NA"))).map (fun p => fetch p 1) =
      Except.ok (Except.ok (PyV.str "NA", PyV.str "NA",
        PyV.arr [PyV.num 0, PyV.num 0])) ∧
    PyV.arr [PyV.num 0, PyV.num 0] ≠ PyV.str "NA" :=
  ⟨rfl, by simp⟩

/-- C6 (amended): for a float-kind Parameter constructed from `"NA"`, every
`sample` call — any band, sample count, bounds, null flag and draws —
returns the literal string `"NA"`, and every `fetch` call returns `"NA"`
for the average and median components but a numeric two-element zero array
(`np.zeros(len("NA"))`) for the std component. -/
theorem c6_na_param_sample_fetch (u : ℚ) (mn mx : Option ℚ) (p : Param)
    (b nsample : Nat) (mn0 mx0 : Option ℚ) (null : Bool) (draws : List ℚ) :
    store_float_str u mn mx (FloatInp.plain (FloatLit.word "NA")) = Except.ok p →
      sample p b nsample mn0 mx0 null draws = Except.ok (PyV.str "NA") ∧
      fetch p b = Except.ok (PyV.str "NA", PyV.str "NA",
        PyV.arr [PyV.num 0, PyV.num 0]) := by
  intro h
  have hs : store_float_str u mn mx (FloatInp.plain (FloatLit.word "NA")) =
      Except.ok (⟨false, PyV.none, PyV.str "NA", PyV.str "NA",
        PyV.arr [PyV.num 0, PyV.num 0], u, mn, mx, true⟩ : Param) := rfl
  rw [hs] at h
  cases h
  exact ⟨rfl, rfl⟩

/-- C6 witness: the amended theorem applied to the concretely constructed
NA parameter, with a five-draw sample request carrying explicit bounds. -/
theorem c6_witness :
    sample ⟨false, PyV.none, PyV.str "NA", PyV.str "NA",
        PyV.arr [PyV.num 0, PyV.num 0], 1, Option.none, Option.none, true⟩ 1 5
        (some 0) (some 9) false [1, 2, 3, 4, 5] = Except.ok (PyV.str "NA") :=
  (c6_na_param_sample_fetch 1 Option.none Option.none _ 1 5 (some 0) (some 9)
    false [1, 2, 3, 4, 5] rfl).1

/-- Getting any index of a constant list with the same default returns the
constant. -/
theorem getD_replicate_self (a : ℚ) : ∀ (n f : Nat), (List.replicate n a).getD f a = a := by
  intro n
  induction n with
  | zero => intro f; simp
  | succ m ih =>
      intro f
      cases f with
      | zero => simp [List.replicate]
      | succ g => rw [List.replicate_succ, List.getD_cons_succ]; exact ih g

/-- Reading a list back out of its own indexed entries. -/
theorem map_range_getD (acc : List ℚ) :
    (List.range acc.length).map (fun f => acc.getD f 1) = acc := by
  induction acc with
  | nil => simp
  | cons x xs ih =>
      rw [List.length_cons, List.range_succ_eq_map, List.map_cons, List.map_map]
      have hcomp : ((fun f => (x :: xs).getD f 1) ∘ Nat.succ) =
          fun f => xs.getD f 1 := by
        funext f; simp
      simp only [List.getD_cons_zero]
      rw [hcomp, ih]

/-- Length of the elementwise product. -/
theorem vmul_length (a b : List ℚ) : (vmul a b).length = min a.length b.length := by
  simp [vmul]

/-- Entries of the elementwise product, in range. -/
theorem vmul_getD (a : List ℚ) : ∀ (b : List ℚ) (f : Nat), f < a.length → f < b.length →
    (vmul a b).getD f 1 = a.getD f 1 * b.getD f 1 := by
  induction a with
  | nil => intro b f hf; simp at hf
  | cons x xs ih =>
      intro b f hf hb
      cases b with
      | nil => simp at hb
      | cons y ys =>
          cases f with
          | zero => simp [vmul]
          | succ g =>
              simp only [vmul, List.zipWith_cons_cons, List.getD_cons_succ]
              exact ih ys g (by simpa using hf) (by simpa using hb)

/-- A left fold of elementwise products over equal-length rows is the
per-index product of all entries. -/
theorem foldl_vmul (nf : Nat) (l : List (List ℚ)) :
    ∀ (acc : List ℚ), (∀ r ∈ l, r.length = nf) → acc.length = nf →
      l.foldl vmul acc =
        (List.range nf).map
          (fun f => acc.getD f 1 * (l.map (fun r => r.getD f 1)).prod) := by
  induction l with
  | nil =>
      intro acc _ hacc
      simp only [List.foldl_nil, List.map_nil, List.prod_nil, mul_one]
      rw [← hacc, map_range_getD]
  | cons x xs ih =>
      intro acc hrows hacc
      have hx : x.length = nf := hrows x (List.mem_cons_self _ _)
      have hxs : ∀ r ∈ xs, r.length = nf := fun r hr => hrows r (List.mem_cons_of_mem _ hr)
      have hvl : (vmul acc x).length = nf := by rw [vmul_length, hacc, hx, min_self]
      rw [List.foldl_cons, ih (vmul acc x) hxs hvl]
      apply List.map_congr_left
      intro f hf
      have hfn : f < nf := List.mem_range.mp hf
      rw [vmul_getD acc x f (by omega) (by omega), List.map_cons, List.prod_cons,
        mul_assoc]

/-- C2: for every chain of per-frequency transmissions (rows of a common
length `nf`) and every element index `k` in range, the reduce-based
toward-detector efficiency of `_opt_pow` equals, frequency by frequency,
the product of the transmissions of all elements strictly downstream of `k`
inclusive of the synthetic terminal; and the toward-sky efficiency list of
element 0 is the single all-zero row, for every chain. -/
theorem c2_cascade_efficiency (nf : Nat) (tran : List (List ℚ))
    (hrows : ∀ r ∈ tran, r.length = nf) :
    (∀ k, k < tran.length →
      cum_eff_det nf tran k = some (spec_eff_det nf tran k)) ∧
    cum_eff_sky nf tran 0 = [zerosRow nf] := by
  constructor
  · intro k hk
    unfold cum_eff_det buffer_tran spec_eff_det
    rw [List.drop_append_of_le_length (by omega)]
    cases hdrop : tran.drop (k + 1) with
    | nil =>
        rw [List.nil_append]
        simp only [pyReduce, List.foldl_nil, List.map_nil, List.prod_nil]
        rw [show ((List.range nf).map fun _f => (1 : ℚ)) = onesRow nf from by
          apply List.eq_replicate_iff.mpr
          exact ⟨by simp, by intro b hb; simp at hb; exact hb.2⟩]
    | cons r rs =>
        have hr : r.length = nf :=
          hrows r (List.drop_subset _ _ (hdrop ▸ List.mem_cons_self _ _))
        have hrs : ∀ row ∈ rs, row.length = nf := fun row hrow =>
          hrows row (List.drop_subset _ _ (hdrop ▸ List.mem_cons_of_mem _ hrow))
        rw [List.cons_append]
        simp only [pyReduce]
        rw [foldl_vmul nf (rs ++ [onesRow nf]) r
          (by
            intro row hrow
            rcases List.mem_append.mp hrow with h | h
            · exact hrs row h
            · simp at h; subst h; simp [onesRow])
          hr]
        apply congrArg
        apply List.map_congr_left
        intro f hf
        rw [List.map_append, List.prod_append, List.map_cons, List.prod_cons]
        simp only [List.map_singleton, List.prod_singleton, onesRow]
        rw [getD_replicate_self]
        simp
  · simp [cum_eff_sky]

/-- C2 witness: the three-element toy chain with transmissions
0.9, 0.8, 1.0 on a one-point frequency grid: element 0's toward-detector
efficiency is 0.8 and its toward-sky efficiency is the zero row. -/
theorem c2_witness :
    cum_eff_det 1 [[9 / 10], [4 / 5], [1]] 0 =
      some (spec_eff_det 1 [[9 / 10], [4 / 5], [1]] 0) ∧
    spec_eff_det 1 [[9 / 10], [4 / 5], [1]] 0 = [4 / 5] ∧
    cum_eff_sky 1 [[9 / 10], [4 / 5], [1]] 0 = [[0]] := by
  have h := c2_cascade_efficiency 1 [[9 / 10], [4 / 5], [1]]
    (by intro r hr; simp at hr; rcases hr with rfl | rfl | rfl <;> rfl)
  refine ⟨h.1 0 (by norm_num), ?_, by simpa [zerosRow] using h.2⟩
  norm_num [spec_eff_det, List.range_succ]

/-- Clamping a scalar sample that falls below the minimum bound. -/
theorem sampleClamp_scalar_min (d m : ℚ) (mx : Option ℚ) (h : d < m) :
    sampleClamp (PyV.num d) (some m) mx = Except.ok (PyV.num m) := by
  have hlt : pyTruthLt (PyV.num d) m = Except.ok true := by
    simp [pyTruthLt, h]
  unfold sampleClamp
  dsimp only
  rw [hlt]
  rfl

/-- Clamping a scalar sample that exceeds the maximum bound (no minimum). -/
theorem sampleClamp_scalar_max (d m : ℚ) (h : m < d) :
    sampleClamp (PyV.num d) Option.none (some m) = Except.ok (PyV.num m) := by
  have hgt : pyTruthGt (PyV.num d) m = Except.ok true := by
    simp [pyTruthGt, h]
  unfold sampleClamp
  dsimp only
  rw [hgt]
  rfl

/-- Branching on a comparison of a multi-element array against a bound
raises `ValueError`, whichever bound is present. -/
theorem sampleClamp_multi_bound_error (x y : PyV) (t : List PyV) (mn mx : Option ℚ)
    (h : mn.isSome ∨ mx.isSome) :
    ∃ e, sampleClamp (PyV.arr (x :: y :: t)) mn mx = Except.error e := by
  cases mn with
  | some m =>
      exact ⟨"ValueError: the truth value of an array with more than one element is ambiguous",
        rfl⟩
  | none =>
      cases mx with
      | some m =>
          exact ⟨"ValueError: the truth value of an array with more than one element is ambiguous",
            rfl⟩
      | none => simp at h

/-- C9: for a gaussian-backed band (numeric average, positive std, not
sentinel, not distribution-backed), the clamping step of `sample` compares
the drawn sample against the scalar bound in a branch condition, so the
call is only total for `nsample = 1` when a bound is in effect: a
multi-sample draw (`nsample ≥ 2`) with an effective min or max bound raises
instead of returning a clamped array, while `nsample = 1` returns `min`
(resp. `max`) whenever the draw falls below (resp. above) the bound. -/
theorem c9_sample_clamp_only_single (p : Param) (b nsample : Nat)
    (mn0 mx0 : Option ℚ) (null : Bool) (draws : List ℚ)
    (c1 : PyV) (a sd : ℚ) (m0 : PyV)
    (hc1 : readCell p.multBands p.avg 1 = Except.ok c1)
    (hne : isEmptyCheck c1 = false)
    (hf : fetch p b = Except.ok (PyV.num a, m0, PyV.num sd))
    (hsd : 0 < sd) :
    (2 ≤ nsample → draws.length = nsample →
      (effBound mn0 p.pmin).isSome ∨ (effBound mx0 p.pmax).isSome →
      ∃ e, sample p b nsample mn0 mx0 null draws = Except.error e) ∧
    (∀ d m, nsample = 1 → draws = [d] → effBound mn0 p.pmin = some m → d < m →
      sample p b nsample mn0 mx0 null draws = Except.ok (PyV.num m)) ∧
    (∀ d m, nsample = 1 → draws = [d] → effBound mn0 p.pmin = Option.none →
      effBound mx0 p.pmax = some m → m < d →
      sample p b nsample mn0 mx0 null draws = Except.ok (PyV.num m)) := by
  have hany : anyLe0 (PyV.num sd) = false := by
    simp only [anyLe0, decide_eq_false_iff_not, not_le]
    exact hsd
  have hsamp : ∀ (ns : Nat) (ds : List ℚ),
      sample p b ns mn0 mx0 null ds =
        sampleClamp (if ns = 1 then PyV.num (ds.headD 0) else PyV.arr (ds.map PyV.num))
          (effBound mn0 p.pmin) (effBound mx0 p.pmax) := by
    intro ns ds
    unfold sample
    rw [hc1]
    show (if isEmptyCheck c1 = true then _ else _) = _
    rw [hne]
    simp only [Bool.false_eq_true, if_false]
    show (fetch p b >>= _) = _
    rw [hf]
    show (if (stdIsNA (PyV.num sd) || anyLe0 (PyV.num sd)) = true then _ else _) = _
    rw [hany]
    rfl
  refine ⟨?_, ?_, ?_⟩
  · intro h2 hlen hbound
    rw [hsamp]
    rcases draws with _ | ⟨x, _ | ⟨y, t⟩⟩
    · simp at hlen; omega
    · simp at hlen; omega
    · rw [if_neg (by omega)]
      simp only [List.map_cons]
      exact sampleClamp_multi_bound_error _ _ _ _ _ hbound
  · intro d m hns hds hmn hdm
    rw [hsamp, hds, if_pos hns, hmn]
    exact sampleClamp_scalar_min _ _ _ hdm
  · intro d m hns hds hmn hmx hmd
    rw [hsamp, hds, if_pos hns, hmn, hmx]
    exact sampleClamp_scalar_max _ _ hmd

/-- C9 witness: a scalar gaussian parameter with mean 5 and std 2; a
two-draw request with a max bound errors, while single draws are clamped
to the bounds. -/
theorem c9_witness :
    (∃ e, sample ⟨false, PyV.none, PyV.num 5, PyV.num 5, PyV.num 2, 1,
        Option.none, Option.none, true⟩ 1 2 Option.none (some 9) false [1, 2] =
        Except.error e) ∧
    sample ⟨false, PyV.none, PyV.num 5, PyV.num 5, PyV.num 2, 1,
        Option.none, Option.none, true⟩ 1 1 (some 3) Option.none false [2] =
      Except.ok (PyV.num 3) ∧
    sample ⟨false, PyV.none, PyV.num 5, PyV.num 5, PyV.num 2, 1,
        Option.none, Option.none, true⟩ 1 1 Option.none (some 9) false [12] =
      Except.ok (PyV.num 9) := by
  have h1 := c9_sample_clamp_only_single
    ⟨false, PyV.none, PyV.num 5, PyV.num 5, PyV.num 2, 1, Option.none, Option.none, true⟩
    1 2 Option.none (some 9) false [1, 2] (PyV.num 5) 5 2 (PyV.num 5)
    rfl rfl rfl (by norm_num)
  have h2 := c9_sample_clamp_only_single
    ⟨false, PyV.none, PyV.num 5, PyV.num 5, PyV.num 2, 1, Option.none, Option.none, true⟩
    1 1 (some 3) Option.none false [2] (PyV.num 5) 5 2 (PyV.num 5)
    rfl rfl rfl (by norm_num)
  have h3 := c9_sample_clamp_only_single
    ⟨false, PyV.none, PyV.num 5, PyV.num 5, PyV.num 2, 1, Option.none, Option.none, true⟩
    1 1 Option.none (some 9) false [12] (PyV.num 5) 5 2 (PyV.num 5)
    rfl rfl rfl (by norm_num)
  refine ⟨h1.1 (by norm_num) rfl (Or.inr rfl), ?_, ?_⟩
  · exact h2.2.1 2 3 rfl rfl rfl (by norm_num)
  · exact h3.2.2 12 9 rfl rfl rfl rfl (by norm_num)

/-- A successfully readable slot can be written, and reading it back yields
the written value. -/
theorem readCell_write (mult : Bool) (v : PyV) (b : Nat) (c x : PyV)
    (h : readCell mult v b = Except.ok c) :
    ∃ w, writeCell mult v b x = Except.ok w ∧ readCell mult w b = Except.ok x := by
  cases mult with
  | false => exact ⟨x, rfl, rfl⟩
  | true =>
      cases v with
      | arr l =>
          simp only [readCell, if_true] at h
          cases hg : l.get? (b - 1) with
          | none => rw [hg] at h; cases h
          | some c0 =>
              rw [hg] at h
              have hb : b - 1 < l.length := (List.get?_eq_some.mp hg).1
              refine ⟨PyV.arr (l.set (b - 1) x), ?_, ?_⟩
              · simp only [writeCell, if_true]
                rw [if_pos hb]
              · simp only [readCell, if_true]
                rw [List.get?_set_eq_of_lt x hb]
      | num q => simp [readCell] at h
      | int n => simp [readCell] at h
      | str s => simp [readCell] at h
      | bool b0 => simp [readCell] at h
      | plist l => simp [readCell] at h
      | none => simp [readCell] at h

/-- Evaluation of `writeAvg` on a state whose addressed average cell is
readable: the write succeeds, reading the cell back yields the written
value, every slot other than `_avg` (and a `_med` that aliases it) is
untouched, and when `_med` is the same array object as `_avg` the written
value is also read back out of the median cell. -/
theorem writeAvg_eval (p : Param) (b : Nat) (c x : PyV)
    (h : readCell p.multBands p.avg b = Except.ok c) :
    ∃ p1, writeAvg p b x = Except.ok p1 ∧
      p1.multBands = p.multBands ∧ p1.val = p.val ∧ p1.std = p.std ∧
      p1.unitScale = p.unitScale ∧
      readCell p1.multBands p1.avg b = Except.ok x ∧
      (p.multBands = false ∨ p.medAliasesAvg = false → p1.med = p.med) ∧
      (p.medAliasesAvg = false → p1.medAliasesAvg = false) ∧
      (p.multBands = true → p.medAliasesAvg = true →
        readCell true p1.med b = Except.ok x) := by
  cases hm : p.multBands with
  | false =>
      refine ⟨{ p with avg := x, medAliasesAvg := false }, ?_, hm, rfl, rfl, rfl,
        ?_, fun _ => rfl, fun _ => rfl, ?_⟩
      · unfold writeAvg
        rw [if_neg (by rw [hm]; exact Bool.false_ne_true)]
      · show readCell p.multBands x b = Except.ok x
        rw [hm]
        exact rfl
      · intro hmt
        exact absurd hmt Bool.false_ne_true
  | true =>
      rw [hm] at h
      obtain ⟨w, hw, hrw⟩ := readCell_write true p.avg b c x h
      cases hal : p.medAliasesAvg with
      | true =>
          refine ⟨{ p with avg := w, med := w }, ?_, hm, rfl, rfl, rfl, ?_, ?_, ?_, ?_⟩
          · unfold writeAvg
            rw [if_pos hm, hw]
            try dsimp only
            rw [if_pos hal]
          · show readCell p.multBands w b = Except.ok x
            rw [hm]
            exact hrw
          · intro hcon
            cases hcon with
            | inl h1 => exact Bool.noConfusion h1
            | inr h2 => exact Bool.noConfusion h2
          · intro hf
            exact Bool.noConfusion hf
          · intro _ _
            exact hrw
      | false =>
          refine ⟨{ p with avg := w }, ?_, hm, rfl, rfl, rfl, ?_, fun _ => rfl,
            fun _ => hal, ?_⟩
          · unfold writeAvg
            rw [if_pos hm, hw]
            try dsimp only
            rw [if_neg (by rw [hal]; exact Bool.false_ne_true)]
          · show readCell p.multBands w b = Except.ok x
            rw [hm]
            exact hrw
          · intro _ hat
            exact absurd hat Bool.false_ne_true

/-- Full characterisation of a numeric `change` on a band whose average and
std slots hold numbers: the call succeeds, the commit flag is true exactly
when the SI-converted average (or, when given, std) differs from the stored
value at 5 significant figures, the slots are updated accordingly, a scalar
or non-aliased median is untouched, an aliased per-band median moves with a
committed average, and when nothing differs the state is returned
unchanged. -/
theorem change_num_eval (p : Param) (v : ℚ) (sv : Option ℚ) (b : Nat) (a sd : ℚ)
    (ha : readCell p.multBands p.avg b = Except.ok (PyV.num a))
    (hs : readCell p.multBands p.std b = Except.ok (PyV.num sd)) :
    ∃ p1,
      change p (ChangeArg.num v) sv b =
        Except.ok (p1,
          (decide (sig_figs (toSI p.unitScale v) 5 ≠ sig_figs a 5) ||
            (match sv with
             | Option.none => false
             | some s => decide (sig_figs (toSI p.unitScale s) 5 ≠ sig_figs sd 5)))) ∧
      p1.multBands = p.multBands ∧ p1.val = p.val ∧ p1.unitScale = p.unitScale ∧
      (p.multBands = false ∨ p.medAliasesAvg = false → p1.med = p.med) ∧
      (p.medAliasesAvg = false → p1.medAliasesAvg = false) ∧
      readCell p1.multBands p1.avg b =
        Except.ok (PyV.num (if sig_figs (toSI p.unitScale v) 5 ≠ sig_figs a 5
          then toSI p.unitScale v else a)) ∧
      readCell p1.multBands p1.std b =
        Except.ok (PyV.num (match sv with
          | Option.none => sd
          | some s => if sig_figs (toSI p.unitScale s) 5 ≠ sig_figs sd 5
              then toSI p.unitScale s else sd)) ∧
      ((sig_figs (toSI p.unitScale v) 5 = sig_figs a 5 ∧
        (match sv with
         | Option.none => True
         | some s => sig_figs (toSI p.unitScale s) 5 = sig_figs sd 5)) → p1 = p) ∧
      (p.multBands = true → p.medAliasesAvg = true →
        sig_figs (toSI p.unitScale v) 5 ≠ sig_figs a 5 →
        readCell true p1.med b = Except.ok (PyV.num (toSI p.unitScale v))) := by
  by_cases hd : sig_figs (toSI p.unitScale v) 5 ≠ sig_figs a 5
  · obtain ⟨pW, hwa, hm', hv', hst', hu', hrc, hmedp, halp, hmcell⟩ :=
      writeAvg_eval p b (PyV.num a) (PyV.num (toSI p.unitScale v)) ha
    have hs' : readCell pW.multBands pW.std b = Except.ok (PyV.num sd) := by
      rw [hm', hst']
      exact hs
    cases sv with
    | none =>
        refine ⟨pW, ?_, hm', hv', hu', hmedp, halp, ?_, ?_, ?_, ?_⟩
        · simp only [change, ha, isEmptyCheck, pyFloatCell, hwa, Bool.false_eq_true, if_false]
          rw [if_pos hd]
          try dsimp only
          rw [decide_eq_true hd]
          try rfl
        · rw [if_pos hd]
          exact hrc
        · exact hs'
        · intro hcon
          exact absurd hcon.1 hd
        · intro hmt hat _
          exact hmcell hmt hat
    | some s =>
        by_cases hsd : sig_figs (toSI p.unitScale s) 5 ≠ sig_figs sd 5
        · obtain ⟨w2, hw2, hrw2⟩ :=
            readCell_write pW.multBands pW.std b _ (PyV.num (toSI p.unitScale s)) hs'
          refine ⟨{ pW with std := w2 }, ?_, hm', hv', hu', hmedp, halp, ?_, ?_, ?_, ?_⟩
          · simp only [change, ha, isEmptyCheck, pyFloatCell, hwa, Bool.false_eq_true, if_false]
            rw [if_pos hd]
            try dsimp only
            rw [hs']
            try dsimp only [pyFloatCell]
            rw [if_pos hsd]
            try dsimp only
            rw [hw2]
            try dsimp only
            rw [decide_eq_true hd, decide_eq_true hsd]
            try rfl
          · rw [if_pos hd]
            exact hrc
          · show readCell pW.multBands w2 b =
              Except.ok (PyV.num (if sig_figs (toSI p.unitScale s) 5 ≠ sig_figs sd 5
                then toSI p.unitScale s else sd))
            rw [if_pos hsd]
            exact hrw2
          · intro hcon
            exact absurd hcon.1 hd
          · intro hmt hat _
            exact hmcell hmt hat
        · refine ⟨pW, ?_, hm', hv', hu', hmedp, halp, ?_, ?_, ?_, ?_⟩
          · simp only [change, ha, isEmptyCheck, pyFloatCell, hwa, Bool.false_eq_true, if_false]
            rw [if_pos hd]
            try dsimp only
            rw [hs']
            try dsimp only [pyFloatCell]
            rw [if_neg hsd]
            try dsimp only
            rw [decide_eq_true hd, decide_eq_false hsd]
            try rfl
          · rw [if_pos hd]
            exact hrc
          · show readCell pW.multBands pW.std b =
              Except.ok (PyV.num (if sig_figs (toSI p.unitScale s) 5 ≠ sig_figs sd 5
                then toSI p.unitScale s else sd))
            rw [if_neg hsd]
            exact hs'
          · intro hcon
            exact absurd hcon.1 hd
          · intro hmt hat _
            exact hmcell hmt hat
  · cases sv with
    | none =>
        refine ⟨p, ?_, rfl, rfl, rfl, fun _ => rfl, fun h => h, ?_, ?_, fun _ => rfl, ?_⟩
        · simp only [change, ha, isEmptyCheck, pyFloatCell, Bool.false_eq_true, if_false]
          rw [if_neg hd]
          try dsimp only
          rw [decide_eq_false hd]
          try rfl
        · show readCell p.multBands p.avg b = _
          rw [if_neg hd]
          exact ha
        · exact hs
        · intro _ _ hcon
          exact absurd hcon hd
    | some s =>
        by_cases hsd : sig_figs (toSI p.unitScale s) 5 ≠ sig_figs sd 5
        · obtain ⟨w2, hw2, hrw2⟩ :=
            readCell_write _ _ _ _ (PyV.num (toSI p.unitScale s)) hs
          refine ⟨{ p with std := w2 }, ?_, rfl, rfl, rfl, fun _ => rfl, fun h => h,
            ?_, ?_, ?_, ?_⟩
          · simp only [change, ha, isEmptyCheck, pyFloatCell, Bool.false_eq_true, if_false]
            rw [if_neg hd]
            try dsimp only
            rw [hs]
            try dsimp only [pyFloatCell]
            rw [if_pos hsd]
            try dsimp only
            rw [hw2]
            try dsimp only
            rw [decide_eq_false hd, decide_eq_true hsd]
            try rfl
          · show readCell p.multBands p.avg b = _
            rw [if_neg hd]
            exact ha
          · show readCell p.multBands w2 b =
              Except.ok (PyV.num (if sig_figs (toSI p.unitScale s) 5 ≠ sig_figs sd 5
                then toSI p.unitScale s else sd))
            rw [if_pos hsd]
            exact hrw2
          · intro hcon
            exact absurd hcon.2 hsd
          · intro _ _ hcon
            exact absurd hcon hd
        · refine ⟨p, ?_, rfl, rfl, rfl, fun _ => rfl, fun h => h, ?_, ?_,
            fun _ => rfl, ?_⟩
          · simp only [change, ha, isEmptyCheck, pyFloatCell, Bool.false_eq_true, if_false]
            rw [if_neg hd]
            try dsimp only
            rw [hs]
            try dsimp only [pyFloatCell]
            rw [if_neg hsd]
            try dsimp only
            rw [decide_eq_false hd, decide_eq_false hsd]
            try rfl
          · show readCell p.multBands p.avg b = _
            rw [if_neg hd]
            exact ha
          · show readCell p.multBands p.std b =
              Except.ok (PyV.num (if sig_figs (toSI p.unitScale s) 5 ≠ sig_figs sd 5
                then toSI p.unitScale s else sd))
            rw [if_neg hsd]
            exact hs
          · intro _ _ hcon
            exact absurd hcon hd

/-- C7: for a float-kind Parameter band whose average and std slots hold
numbers, a numeric `change` converts the new value to SI units and commits
it exactly when it differs from the stored value at 5-significant-figure
precision, returning whether a commit occurred; a second identical call
returns the same state and reports no change (idempotence); and a sentinel
(uninitialized) slot is treated as unconditionally different, so a first
assignment always commits. -/
theorem c7_change_deadband_idempotent (p : Param) (v : ℚ) (sv : Option ℚ) (b : Nat) :
    (∀ a sd,
      readCell p.multBands p.avg b = Except.ok (PyV.num a) →
      readCell p.multBands p.std b = Except.ok (PyV.num sd) →
      ∃ p1 r1,
        change p (ChangeArg.num v) sv b = Except.ok (p1, r1) ∧
        (sv = Option.none →
          r1 = decide (sig_figs (toSI p.unitScale v) 5 ≠ sig_figs a 5)) ∧
        readCell p1.multBands p1.avg b =
          Except.ok (PyV.num (if sig_figs (toSI p.unitScale v) 5 ≠ sig_figs a 5
            then toSI p.unitScale v else a)) ∧
        change p1 (ChangeArg.num v) sv b = Except.ok (p1, false)) ∧
    (∀ c, readCell p.multBands p.avg b = Except.ok c → isEmptyCheck c = true →
      ∃ p1, change p (ChangeArg.num v) sv b = Except.ok (p1, true) ∧
        readCell p1.multBands p1.avg b = Except.ok (PyV.num (toSI p.unitScale v))) := by
  constructor
  · intro a sd ha hs
    cases sv with
    | none =>
        obtain ⟨p1, hch, hmb, hval, hu, hmedc, halc, hra, hrs, hunch, hmcell⟩ :=
          change_num_eval p v Option.none b a sd ha hs
        refine ⟨p1, _, hch, fun _ => by simp, hra, ?_⟩
        obtain ⟨p2, hch2, _, _, _, _, _, _, _, hunch2, _⟩ :=
          change_num_eval p1 v Option.none b _ _ hra hrs
        have h1 : sig_figs (toSI p1.unitScale v) 5 =
            sig_figs (if sig_figs (toSI p.unitScale v) 5 ≠ sig_figs a 5
              then toSI p.unitScale v else a) 5 := by
          rw [hu]
          by_cases hd : sig_figs (toSI p.unitScale v) 5 ≠ sig_figs a 5
          · rw [if_pos hd]
          · rw [if_neg hd]
            exact not_not.mp hd
        have hp21 : p2 = p1 := hunch2 ⟨h1, trivial⟩
        rw [hp21] at hch2
        simpa [h1] using hch2
    | some s =>
        obtain ⟨p1, hch, hmb, hval, hu, hmedc, halc, hra, hrs, hunch, hmcell⟩ :=
          change_num_eval p v (some s) b a sd ha hs
        refine ⟨p1, _, hch, fun hcon => Option.noConfusion hcon, hra, ?_⟩
        obtain ⟨p2, hch2, _, _, _, _, _, _, _, hunch2, _⟩ :=
          change_num_eval p1 v (some s) b _ _ hra hrs
        have h1 : sig_figs (toSI p1.unitScale v) 5 =
            sig_figs (if sig_figs (toSI p.unitScale v) 5 ≠ sig_figs a 5
              then toSI p.unitScale v else a) 5 := by
          rw [hu]
          by_cases hd : sig_figs (toSI p.unitScale v) 5 ≠ sig_figs a 5
          · rw [if_pos hd]
          · rw [if_neg hd]
            exact not_not.mp hd
        have h2 : sig_figs (toSI p1.unitScale s) 5 =
            sig_figs (if sig_figs (toSI p.unitScale s) 5 ≠ sig_figs sd 5
              then toSI p.unitScale s else sd) 5 := by
          rw [hu]
          by_cases hd : sig_figs (toSI p.unitScale s) 5 ≠ sig_figs sd 5
          · rw [if_pos hd]
          · rw [if_neg hd]
            exact not_not.mp hd
        have hp21 : p2 = p1 := hunch2 ⟨h1, h2⟩
        rw [hp21] at hch2
        simpa [h1, h2] using hch2
  · intro c hc hemp
    obtain ⟨pW, hwa, hm', hv', hst', hu', hrc, hmedp, halp, hmcell⟩ :=
      writeAvg_eval p b c (PyV.num (toSI p.unitScale v)) hc
    refine ⟨pW, ?_, hrc⟩
    simp only [change, hc, hemp, if_true, hwa]

/-- C7 witness: a scalar parameter in SI units with stored average 2 and
std 0; changing it to 3 with no std argument. -/
theorem c7_witness :
    ∃ p1 r1,
      change ⟨false, PyV.none, PyV.num 2, PyV.num 2, PyV.num 0, 1, Option.none,
        Option.none, true⟩ (ChangeArg.num 3) Option.none 1 = Except.ok (p1, r1) ∧
      (Option.none = (Option.none : Option ℚ) →
        r1 = decide (sig_figs (toSI 1 3) 5 ≠ sig_figs 2 5)) ∧
      readCell p1.multBands p1.avg 1 =
        Except.ok (PyV.num (if sig_figs (toSI 1 3) 5 ≠ sig_figs 2 5
          then toSI 1 3 else 2)) ∧
      change p1 (ChangeArg.num 3) Option.none 1 = Except.ok (p1, false) :=
  (c7_change_deadband_idempotent
    ⟨false, PyV.none, PyV.num 2, PyV.num 2, PyV.num 0, 1, Option.none, Option.none, true⟩
    3 Option.none 1).1 2 0 rfl rfl

/-- Subscripting a slot errs exactly as its shape dictates, and succeeds
otherwise. -/
theorem readCell_err_spec (x : PyV) (b : Nat) :
    (match readErr (arrShape x) b with
     | some e => readCell true x b = Except.error e
     | Option.none => ∃ c, readCell true x b = Except.ok c) := by
  cases x with
  | arr l =>
      simp only [arrShape, readErr]
      by_cases hb : b - 1 < l.length
      · rw [if_pos hb]
        refine ⟨l.get ⟨b - 1, hb⟩, ?_⟩
        simp only [readCell, if_true]
        rw [List.get?_eq_get hb]
      · rw [if_neg hb]
        simp only [readCell, if_true]
        rw [List.get?_eq_none.mpr (Nat.le_of_not_lt hb)]
  | num q => exact rfl
  | int n => exact rfl
  | str s => exact rfl
  | bool b0 => exact rfl
  | plist l => exact rfl
  | none => exact rfl

/-- The median component of `fetch` — and hence `get_med` — depends only on
the median slot, the value slot, `_mult_bands`, and the shapes of the
average and std slots; in particular it is unchanged by any update that
rewrites average/std cells in place. -/
theorem get_med_congr (p p1 : Param) (b : Nat)
    (hmb : p1.multBands = p.multBands) (hval : p1.val = p.val)
    (hmed : p1.med = p.med) (hiso : p1.avg.isNone = p.avg.isNone)
    (hsa : arrShape p1.avg = arrShape p.avg)
    (hss : arrShape p1.std = arrShape p.std) :
    get_med p1 b = get_med p b := by
  unfold get_med fetch
  rw [hmb, hval, hmed, hiso]
  by_cases h1 : (!p.val.isNone && p.avg.isNone) = true
  · rw [if_pos h1, if_pos h1]
  · rw [if_neg h1, if_neg h1]
    by_cases h2 : p.multBands
    · rw [if_pos h2, if_pos h2]
      have hA := readCell_err_spec p1.avg b
      have hA0 := readCell_err_spec p.avg b
      rw [hsa] at hA
      cases hE : readErr (arrShape p.avg) b with
      | some e =>
          rw [hE] at hA hA0
          rw [hA, hA0]
          rfl
      | none =>
          rw [hE] at hA hA0
          obtain ⟨c1, hc1⟩ := hA
          obtain ⟨c0, hc0⟩ := hA0
          rw [hc1, hc0]
          cases hM : readCell true p.med b with
          | error e => rfl
          | ok m =>
              have hS := readCell_err_spec p1.std b
              have hS0 := readCell_err_spec p.std b
              rw [hss] at hS
              cases hE2 : readErr (arrShape p.std) b with
              | some e =>
                  rw [hE2] at hS hS0
                  rw [hS, hS0]
                  rfl
              | none =>
                  rw [hE2] at hS hS0
                  obtain ⟨s1, hs1⟩ := hS
                  obtain ⟨s0, hs0⟩ := hS0
                  rw [hs1, hs0]
                  rfl
    · rw [if_neg h2, if_neg h2]
      rfl

/-- Writing a cell preserves the slot's shape and noneness, given that in
the scalar (non-per-band) case the written value has the same shape and
noneness as the old slot. -/
theorem writeCell_shape (mult : Bool) (v : PyV) (b : Nat) (c w : PyV)
    (h : writeCell mult v b c = Except.ok w)
    (hnm : mult = false → arrShape c = arrShape v ∧ c.isNone = v.isNone) :
    arrShape w = arrShape v ∧ w.isNone = v.isNone := by
  cases mult with
  | false =>
      simp only [writeCell, Bool.false_eq_true, if_false] at h
      cases h
      exact hnm rfl
  | true =>
      cases v with
      | arr l =>
          simp only [writeCell, if_true] at h
          by_cases hb : b - 1 < l.length
          · rw [if_pos hb] at h
            cases h
            simp [arrShape, PyV.isNone]
          · rw [if_neg hb] at h
            cases h
      | num q => simp [writeCell] at h
      | int n => simp [writeCell] at h
      | str s => simp [writeCell] at h
      | bool b0 => simp [writeCell] at h
      | plist l => simp [writeCell] at h
      | none => simp [writeCell] at h

/-- A slot whose `upper()` succeeds is a string. -/
theorem pyUpperCell_ok_shape (c : PyV) (s0 : String)
    (h : pyUpperCell c = Except.ok s0) :
    arrShape c = Option.none ∧ c.isNone = false := by
  cases c <;> simp [pyUpperCell, arrShape, PyV.isNone] at h ⊢

/-- A slot that `round` accepts is a float or an int. -/
theorem pyFloatCell_ok_shape (c : PyV) (q : ℚ)
    (h : pyFloatCell c = Except.ok q) :
    arrShape c = Option.none ∧ c.isNone = false := by
  cases c <;> simp [pyFloatCell, arrShape, PyV.isNone] at h ⊢

/-- A sentinel slot is a string. -/
theorem isEmptyCheck_true_shape (c : PyV) (h : isEmptyCheck c = true) :
    arrShape c = Option.none ∧ c.isNone = false := by
  cases c <;> simp [isEmptyCheck, arrShape, PyV.isNone] at h ⊢

/-- In the scalar case, a cell read returns the slot itself. -/
theorem readCell_false_eq (v c : PyV) (b : Nat)
    (h : readCell false v b = Except.ok c) : c = v := by
  simp only [readCell, Bool.false_eq_true, if_false] at h
  cases h
  rfl

/-- Shape bookkeeping for `writeAvg`: `_mult_bands`, `_val` and `_std` are
untouched and the average slot keeps its shape and noneness (given that a
scalar assignment writes a value of the old shape); the median is untouched
unless it is a per-band array aliasing the average, and the aliasing flag
never turns on. -/
theorem writeAvg_shape (p : Param) (b : Nat) (x : PyV) (p1 : Param)
    (h : writeAvg p b x = Except.ok p1)
    (hnm : p.multBands = false → arrShape x = arrShape p.avg ∧ x.isNone = p.avg.isNone) :
    p1.multBands = p.multBands ∧ p1.val = p.val ∧ p1.std = p.std ∧
    p1.avg.isNone = p.avg.isNone ∧ arrShape p1.avg = arrShape p.avg ∧
    (p.multBands = false ∨ p.medAliasesAvg = false → p1.med = p.med) ∧
    (p.medAliasesAvg = false → p1.medAliasesAvg = false) := by
  unfold writeAvg at h
  by_cases hm : p.multBands = true
  · rw [if_pos hm] at h
    cases hwc : writeCell true p.avg b x with
    | error e => rw [hwc] at h; simp at h
    | ok a1 =>
        rw [hwc] at h
        try dsimp only at h
        have hsh := writeCell_shape true p.avg b x a1 hwc
          (fun hff => Bool.noConfusion hff)
        by_cases hal : p.medAliasesAvg = true
        · rw [if_pos hal] at h
          cases h
          refine ⟨rfl, rfl, rfl, hsh.2, hsh.1, ?_, ?_⟩
          · intro hcon
            cases hcon with
            | inl h1 => rw [hm] at h1; exact Bool.noConfusion h1
            | inr h2 => rw [hal] at h2; exact Bool.noConfusion h2
          · intro hf
            rw [hal] at hf
            exact Bool.noConfusion hf
        · rw [if_neg hal] at h
          cases h
          exact ⟨rfl, rfl, rfl, hsh.2, hsh.1, fun _ => rfl, fun hf => hf⟩
  · rw [if_neg hm] at h
    cases h
    have hmf : p.multBands = false := by
      cases hmb : p.multBands with
      | false => rfl
      | true => exact absurd hmb hm
    exact ⟨rfl, rfl, rfl, (hnm hmf).2, (hnm hmf).1, fun _ => rfl, fun _ => rfl⟩

/-- Every successful `change` call rewrites only average/std content in
place: `_mult_bands` and `_val` are untouched, the shapes (and noneness) of
the average and std slots are preserved, the median is untouched whenever
the parameter is scalar or its median does not alias its average, and the
aliasing flag never turns on. -/
theorem change_state_shape (p : Param) (arg : ChangeArg) (sv : Option ℚ) (b : Nat)
    (pr : Param × Bool) (h : change p arg sv b = Except.ok pr) :
    pr.1.multBands = p.multBands ∧ pr.1.val = p.val ∧
    pr.1.avg.isNone = p.avg.isNone ∧ arrShape pr.1.avg = arrShape p.avg ∧
    arrShape pr.1.std = arrShape p.std ∧
    (p.multBands = false ∨ p.medAliasesAvg = false → pr.1.med = p.med) ∧
    (p.medAliasesAvg = false → pr.1.medAliasesAvg = false) := by
  cases arg with
  | str s =>
      unfold change at h
      cases hra : readCell p.multBands p.avg b with
      | error e => rw [hra] at h; simp at h
      | ok c =>
          rw [hra] at h
          try dsimp only at h
          cases hup : pyUpperCell c with
          | error e => rw [hup] at h; simp at h
          | ok s0 =>
              rw [hup] at h
              try dsimp only at h
              have hcs := pyUpperCell_ok_shape c s0 hup
              by_cases hne : s0 ≠ pyUpperStr s
              · rw [if_pos hne] at h
                cases hwa : writeAvg p b (PyV.str s) with
                | error e => rw [hwa] at h; simp at h
                | ok p1 =>
                    rw [hwa] at h
                    try dsimp only at h
                    cases h
                    have hsh := writeAvg_shape p b (PyV.str s) p1 hwa
                      (by
                        intro hm
                        rw [hm] at hra
                        have hcv := readCell_false_eq _ _ _ hra
                        rw [← hcv]
                        exact ⟨hcs.1.symm ▸ rfl, hcs.2.symm ▸ rfl⟩)
                    exact ⟨hsh.1, hsh.2.1, hsh.2.2.2.1, hsh.2.2.2.2.1,
                      congrArg arrShape hsh.2.2.1, hsh.2.2.2.2.2.1, hsh.2.2.2.2.2.2⟩
              · rw [if_neg hne] at h
                cases h
                exact ⟨rfl, rfl, rfl, rfl, rfl, fun _ => rfl, fun hf => hf⟩
  | num v =>
      unfold change at h
      try dsimp only at h
      cases hra : readCell p.multBands p.avg b with
      | error e => rw [hra] at h; simp at h
      | ok c =>
          rw [hra] at h
          try dsimp only at h
          by_cases hemp : isEmptyCheck c = true
          · rw [if_pos hemp] at h
            have hcs := isEmptyCheck_true_shape c hemp
            cases hwa : writeAvg p b (PyV.num (toSI p.unitScale v)) with
            | error e => rw [hwa] at h; simp at h
            | ok p1 =>
                rw [hwa] at h
                try dsimp only at h
                cases h
                have hsh := writeAvg_shape p b _ p1 hwa
                  (by
                    intro hm
                    rw [hm] at hra
                    have hcv := readCell_false_eq _ _ _ hra
                    rw [← hcv]
                    exact ⟨hcs.1.symm ▸ rfl, hcs.2.symm ▸ rfl⟩)
                exact ⟨hsh.1, hsh.2.1, hsh.2.2.2.1, hsh.2.2.2.2.1,
                  congrArg arrShape hsh.2.2.1, hsh.2.2.2.2.2.1, hsh.2.2.2.2.2.2⟩
          · rw [if_neg hemp] at h
            cases hfl : pyFloatCell c with
            | error e => rw [hfl] at h; simp at h
            | ok a0 =>
                rw [hfl] at h
                try dsimp only at h
                have hcs := pyFloatCell_ok_shape c a0 hfl
                have havmain : ∀ p1r : Param × Bool,
                    (if sig_figs (toSI p.unitScale v) 5 ≠ sig_figs a0 5 then
                        match writeAvg p b (PyV.num (toSI p.unitScale v)) with
                        | Except.error e => Except.error e
                        | Except.ok p1 => Except.ok (p1, true)
                      else Except.ok (p, false) :
                        Except String (Param × Bool)) = Except.ok p1r →
                    p1r.1.multBands = p.multBands ∧ p1r.1.val = p.val ∧
                    p1r.1.std = p.std ∧ p1r.1.avg.isNone = p.avg.isNone ∧
                    arrShape p1r.1.avg = arrShape p.avg ∧
                    (p.multBands = false ∨ p.medAliasesAvg = false →
                      p1r.1.med = p.med) ∧
                    (p.medAliasesAvg = false → p1r.1.medAliasesAvg = false) := by
                  intro p1r hav
                  by_cases hd : sig_figs (toSI p.unitScale v) 5 ≠ sig_figs a0 5
                  · rw [if_pos hd] at hav
                    cases hwa : writeAvg p b (PyV.num (toSI p.unitScale v)) with
                    | error e => rw [hwa] at hav; simp at hav
                    | ok p1 =>
                        rw [hwa] at hav
                        try dsimp only at hav
                        cases hav
                        exact writeAvg_shape p b _ p1 hwa
                          (by
                            intro hm
                            rw [hm] at hra
                            have hcv := readCell_false_eq _ _ _ hra
                            rw [← hcv]
                            exact ⟨hcs.1.symm ▸ rfl, hcs.2.symm ▸ rfl⟩)
                  · rw [if_neg hd] at hav
                    cases hav
                    exact ⟨rfl, rfl, rfl, rfl, rfl, fun _ => rfl, fun hf => hf⟩
                cases hav : (if sig_figs (toSI p.unitScale v) 5 ≠ sig_figs a0 5 then
                    match writeAvg p b (PyV.num (toSI p.unitScale v)) with
                    | Except.error e => Except.error e
                    | Except.ok p1 => Except.ok (p1, true)
                  else Except.ok (p, false) :
                    Except String (Param × Bool)) with
                | error e => rw [hav] at h; simp at h
                | ok p1r =>
                    rw [hav] at h
                    try dsimp only at h
                    have hav1 := havmain p1r hav
                    cases sv with
                    | none =>
                        cases h
                        exact ⟨hav1.1, hav1.2.1, hav1.2.2.2.1, hav1.2.2.2.2.1,
                          congrArg arrShape hav1.2.2.1, hav1.2.2.2.2.2.1,
                          hav1.2.2.2.2.2.2⟩
                    | some s =>
                        try dsimp only at h
                        rw [hav1.1, hav1.2.2.1] at h
                        cases hrs : readCell p.multBands p.std b with
                        | error e => rw [hrs] at h; simp at h
                        | ok sc =>
                            rw [hrs] at h
                            try dsimp only at h
                            cases hfls : pyFloatCell sc with
                            | error e => rw [hfls] at h; simp at h
                            | ok s0 =>
                                rw [hfls] at h
                                try dsimp only at h
                                have hscs := pyFloatCell_ok_shape sc s0 hfls
                                by_cases hsd : sig_figs (toSI p.unitScale s) 5 ≠
                                    sig_figs s0 5
                                · rw [if_pos hsd] at h
                                  cases hwc2 : writeCell p.multBands p.std b
                                      (PyV.num (toSI p.unitScale s)) with
                                  | error e => rw [hwc2] at h; simp at h
                                  | ok s1 =>
                                      rw [hwc2] at h
                                      try dsimp only at h
                                      cases h
                                      have hsh2 := writeCell_shape p.multBands p.std b
                                          _ s1 hwc2
                                        (by
                                          intro hm
                                          rw [hm] at hrs
                                          have hcv := readCell_false_eq _ _ _ hrs
                                          rw [← hcv]
                                          exact ⟨hscs.1.symm ▸ rfl, hscs.2.symm ▸ rfl⟩)
                                      exact ⟨rfl, hav1.2.1, hav1.2.2.2.1,
                                        hav1.2.2.2.2.1, hsh2.1, hav1.2.2.2.2.2.1,
                                        hav1.2.2.2.2.2.2⟩
                                · rw [if_neg hsd] at h
                                  cases h
                                  exact ⟨hav1.1, hav1.2.1, hav1.2.2.2.1,
                                    hav1.2.2.2.2.1, congrArg arrShape hav1.2.2.1,
                                    hav1.2.2.2.2.2.1, hav1.2.2.2.2.2.2⟩

/-- A per-band cell read succeeds only on an array slot, which is not the
`None` sentinel. -/
theorem readCell_true_ok_not_none (x : PyV) (b : Nat) (c : PyV)
    (h : readCell true x b = Except.ok c) : x.isNone = false := by
  cases x with
  | arr l => rfl
  | num q => simp [readCell] at h
  | int n => simp [readCell] at h
  | str s => simp [readCell] at h
  | bool b0 => simp [readCell] at h
  | plist l => simp [readCell] at h
  | none => simp [readCell] at h

/-- The median component of `fetch` on a per-band state whose three cells
read successfully is exactly the median cell. -/
theorem get_med_of_cells (p1 : Param) (b : Nat) (av m sd : PyV)
    (hmb : p1.multBands = true)
    (hA : readCell true p1.avg b = Except.ok av)
    (hM : readCell true p1.med b = Except.ok m)
    (hS : readCell true p1.std b = Except.ok sd) :
    get_med p1 b = Except.ok m := by
  have hAn : p1.avg.isNone = false := readCell_true_ok_not_none p1.avg b av hA
  unfold get_med fetch
  rw [hAn]
  simp only [Bool.and_false, Bool.false_eq_true, if_false]
  rw [if_pos hmb, hA, hM, hS]
  rfl

/-- Five significant figures of `5.0` is `5.0` (concrete evaluation of the
embedded `_sig_figs`). -/
theorem sig_figs_five : sig_figs 5 5 = 5 := by
  have hcu : countUp (5:ℚ).num.natAbs 5 = 0 := by rw [countUp]; norm_num
  have hlf : log10floorQ 5 = 0 := by
    rw [log10floorQ, if_pos (by norm_num)]
    exact hcu
  have hrh : roundHalfEven ((5:ℚ) * 10 ^ (4:ℤ).toNat) = 50000 := by
    show roundHalfEven ((5:ℚ) * 10 ^ (4:ℕ)) = 50000
    rw [roundHalfEven]
    norm_num
  rw [sig_figs, if_neg (by norm_num), abs_of_pos (by norm_num), hlf]
  show pyRound 5 4 = 5
  rw [pyRound, if_pos (by norm_num), hrh]
  show (50000 : ℚ) / 10 ^ (4 : ℕ) = 5
  norm_num

/-- Five significant figures of `1.0` is `1.0` (concrete evaluation of the
embedded `_sig_figs`). -/
theorem sig_figs_one : sig_figs 1 5 = 1 := by
  have hcu : countUp (1:ℚ).num.natAbs 1 = 0 := by rw [countUp]; norm_num
  have hlf : log10floorQ 1 = 0 := by
    rw [log10floorQ, if_pos (by norm_num)]
    exact hcu
  have hrh : roundHalfEven ((1:ℚ) * 10 ^ (4:ℤ).toNat) = 10000 := by
    show roundHalfEven ((1:ℚ) * 10 ^ (4:ℕ)) = 10000
    rw [roundHalfEven]
    norm_num
  rw [sig_figs, if_neg (by norm_num), abs_of_pos (by norm_num), hlf]
  show pyRound 1 4 = 1
  rw [pyRound, if_pos (by norm_num), hrh]
  show (10000 : ℚ) / 10 ^ (4 : ℕ) = 1
  norm_num

/-- C10 counterexample: a per-band float Parameter built by
`_store_float_str` from the spread literal with mean list [1.0, 2.0] and
std list [1.0, 1.0] (unit scale 1) has `get_med(1) = 1.0`; the numeric call
`change(5.0, band_id=1)` commits, and because parameter.py line 316 made
`_med` the very numpy array `_avg`, the in-place write
`self._avg[0] = 5.0` also moves the median: `get_med(1)` afterwards
returns `5.0`, not the construction-time median — refuting the claim that
`change` never modifies the stored median. -/
theorem c10_counterexample :
    ∃ p p1,
      construct_float_str 1 Option.none Option.none
        (FloatInp.spread (FloatLit.list1 [1, 2]) (FloatLit.list1 [1, 1])) =
        Except.ok p ∧
      get_med p 1 = Except.ok (PyV.num 1) ∧
      change p (ChangeArg.num 5) Option.none 1 = Except.ok (p1, true) ∧
      get_med p1 1 = Except.ok (PyV.num 5) := by
  have hcon : construct_float_str 1 Option.none Option.none
      (FloatInp.spread (FloatLit.list1 [1, 2]) (FloatLit.list1 [1, 1])) =
      Except.ok ⟨true, PyV.none, PyV.arr [PyV.num 1, PyV.num 2],
        PyV.arr [PyV.num 1, PyV.num 2], PyV.arr [PyV.num 1, PyV.num 1], 1,
        Option.none, Option.none, true⟩ := by
    show Except.ok (⟨true, PyV.none,
        PyV.arr [PyV.num (toSI 1 1), PyV.num (toSI 1 2)],
        PyV.arr [PyV.num (toSI 1 1), PyV.num (toSI 1 2)],
        PyV.arr [PyV.num (toSI 1 1), PyV.num (toSI 1 1)], 1,
        Option.none, Option.none, true⟩ : Param) =
      Except.ok ⟨true, PyV.none, PyV.arr [PyV.num 1, PyV.num 2],
        PyV.arr [PyV.num 1, PyV.num 2], PyV.arr [PyV.num 1, PyV.num 1], 1,
        Option.none, Option.none, true⟩
    norm_num [toSI]
  have h15 : toSI (1:ℚ) 5 = 5 := by
    show (1:ℚ) * 5 = 5
    norm_num
  have hd : sig_figs (toSI (1:ℚ) 5) 5 ≠ sig_figs (1:ℚ) 5 := by
    rw [h15, sig_figs_five, sig_figs_one]
    norm_num
  obtain ⟨p1, hch, hmb, hval, hu, hmedc, halc, hra, hrs, hunch, hmcell⟩ :=
    change_num_eval ⟨true, PyV.none, PyV.arr [PyV.num 1, PyV.num 2],
      PyV.arr [PyV.num 1, PyV.num 2], PyV.arr [PyV.num 1, PyV.num 1], 1,
      Option.none, Option.none, true⟩ 5 Option.none 1 1 1 rfl rfl
  dsimp only at hch hmb hra hrs
  have hch' : change (⟨true, PyV.none, PyV.arr [PyV.num 1, PyV.num 2],
      PyV.arr [PyV.num 1, PyV.num 2], PyV.arr [PyV.num 1, PyV.num 1], 1,
      Option.none, Option.none, true⟩ : Param) (ChangeArg.num 5) Option.none 1 =
      Except.ok (p1, true) := by
    rw [hch]
    try dsimp only
    rw [decide_eq_true hd]
    rfl
  rw [hmb] at hra hrs
  have hM := hmcell rfl rfl hd
  have hget := get_med_of_cells p1 1 _ _ _ hmb hra hM hrs
  refine ⟨_, p1, hcon, rfl, hch', ?_⟩
  rw [hget]
  try dsimp only
  rw [h15]

/-- C10 (amended): `change` never modifies the stored median of a scalar
parameter, nor of a per-band parameter whose median does not alias its
average: after any sequence of successful `change` calls both `_med` and
`get_med` (for every band) are unchanged.  But for a per-band float
parameter whose median aliases its average (`_store_float_str` executes
`self._med = self._avg`, parameter.py lines 316 and 322), a numeric
`change` that commits a band's average also moves the median: `get_med` of
that band returns the new SI-converted value. -/
theorem c10_median_aliasing (p : Param) :
    (∀ (ops : List (ChangeArg × Option ℚ × Nat)) (p1 : Param),
      p.multBands = false ∨ p.medAliasesAvg = false →
      applyChanges p ops = Except.ok p1 →
      p1.med = p.med ∧ ∀ b, get_med p1 b = get_med p b) ∧
    (∀ (v : ℚ) (sv : Option ℚ) (b : Nat) (a sd : ℚ),
      p.multBands = true → p.medAliasesAvg = true →
      readCell true p.avg b = Except.ok (PyV.num a) →
      readCell true p.std b = Except.ok (PyV.num sd) →
      sig_figs (toSI p.unitScale v) 5 ≠ sig_figs a 5 →
      ∃ p1 r, change p (ChangeArg.num v) sv b = Except.ok (p1, r) ∧ r = true ∧
        get_med p1 b = Except.ok (PyV.num (toSI p.unitScale v))) := by
  constructor
  · intro ops p1 hok happ
    have main : ∀ (l : List (ChangeArg × Option ℚ × Nat)) (q q1 : Param),
        applyChanges q l = Except.ok q1 →
        (q.multBands = false ∨ q.medAliasesAvg = false) →
        q1.multBands = q.multBands ∧ q1.val = q.val ∧ q1.med = q.med ∧
        q1.avg.isNone = q.avg.isNone ∧ arrShape q1.avg = arrShape q.avg ∧
        arrShape q1.std = arrShape q.std := by
      intro l
      induction l with
      | nil =>
          intro q q1 hq _
          simp only [applyChanges] at hq
          cases hq
          exact ⟨rfl, rfl, rfl, rfl, rfl, rfl⟩
      | cons op rest ih =>
          intro q q1 hq hqok
          simp only [applyChanges] at hq
          cases hc : change q op.1 op.2.1 op.2.2 with
          | error e =>
              rw [hc] at hq
              exact Except.noConfusion hq
          | ok prr =>
              rw [hc] at hq
              have h1 := change_state_shape q op.1 op.2.1 op.2.2 prr hc
              have hnext : prr.1.multBands = false ∨ prr.1.medAliasesAvg = false := by
                cases hqok with
                | inl hmf => exact Or.inl (h1.1.trans hmf)
                | inr haf => exact Or.inr (h1.2.2.2.2.2.2 haf)
              have h2 := ih prr.1 q1 hq hnext
              exact ⟨h2.1.trans h1.1, h2.2.1.trans h1.2.1,
                h2.2.2.1.trans (h1.2.2.2.2.2.1 hqok),
                h2.2.2.2.1.trans h1.2.2.1, h2.2.2.2.2.1.trans h1.2.2.2.1,
                h2.2.2.2.2.2.trans h1.2.2.2.2.1⟩
    have hm := main ops p p1 happ hok
    exact ⟨hm.2.2.1, fun b => get_med_congr p p1 b hm.1 hm.2.1 hm.2.2.1
      hm.2.2.2.1 hm.2.2.2.2.1 hm.2.2.2.2.2⟩
  · intro v sv b a sd hmt hat ha hs hd
    have ha' : readCell p.multBands p.avg b = Except.ok (PyV.num a) := by
      rw [hmt]
      exact ha
    have hs' : readCell p.multBands p.std b = Except.ok (PyV.num sd) := by
      rw [hmt]
      exact hs
    obtain ⟨p1, hch, hmb, hval, hu, hmedc, halc, hra, hrs, hunch, hmcell⟩ :=
      change_num_eval p v sv b a sd ha' hs'
    refine ⟨p1, _, hch, ?_, ?_⟩
    · rw [decide_eq_true hd]
      exact Bool.true_or _
    · have hmbt : p1.multBands = true := hmb.trans hmt
      have hA := hra
      rw [hmbt] at hA
      have hS := hrs
      rw [hmbt] at hS
      have hM := hmcell hmt hat hd
      exact get_med_of_cells p1 b _ _ _ hmbt hA hM hS

/-- C10 witness: the non-aliased branch of the amended theorem applied to a
scalar string-slot parameter (a committed string `change` leaves the median
and `get_med` untouched), and the aliased branch applied to a one-band
float parameter in SI units with stored average, median and std 1.0:
changing the average to 5.0 commits and `get_med` of band 1 returns the new
value. -/
theorem c10_witness :
    (∃ p1, applyChanges ⟨false, PyV.none, PyV.str "NA", PyV.str "NA",
        PyV.arr [PyV.num 0, PyV.num 0], 1, Option.none, Option.none, true⟩
        [(ChangeArg.str "BAND", Option.none, 1)] = Except.ok p1 ∧
      p1.med = PyV.str "NA" ∧
      get_med p1 1 = get_med ⟨false, PyV.none, PyV.str "NA", PyV.str "NA",
        PyV.arr [PyV.num 0, PyV.num 0], 1, Option.none, Option.none, true⟩ 1) ∧
    (∃ p1 r, change ⟨true, PyV.none, PyV.arr [PyV.num 1], PyV.arr [PyV.num 1],
        PyV.arr [PyV.num 1], 1, Option.none, Option.none, true⟩
        (ChangeArg.num 5) Option.none 1 = Except.ok (p1, r) ∧ r = true ∧
      get_med p1 1 = Except.ok (PyV.num (toSI 1 5))) := by
  constructor
  · have happ : applyChanges ⟨false, PyV.none, PyV.str "NA", PyV.str "NA",
        PyV.arr [PyV.num 0, PyV.num 0], 1, Option.none, Option.none, true⟩
        [(ChangeArg.str "BAND", Option.none, 1)] =
        Except.ok ⟨false, PyV.none, PyV.str "BAND", PyV.str "NA",
          PyV.arr [PyV.num 0, PyV.num 0], 1, Option.none, Option.none, false⟩ := rfl
    have hth := (c10_median_aliasing ⟨false, PyV.none, PyV.str "NA", PyV.str "NA",
        PyV.arr [PyV.num 0, PyV.num 0], 1, Option.none, Option.none, true⟩).1
      [(ChangeArg.str "BAND", Option.none, 1)] _ (Or.inl rfl) happ
    exact ⟨_, happ, hth.1, hth.2 1⟩
  · have hne : sig_figs (toSI (1:ℚ) 5) 5 ≠ sig_figs (1:ℚ) 5 := by
      have h15 : toSI (1:ℚ) 5 = 5 := by
        show (1:ℚ) * 5 = 5
        norm_num
      rw [h15, sig_figs_five, sig_figs_one]
      norm_num
    exact (c10_median_aliasing ⟨true, PyV.none, PyV.arr [PyV.num 1],
      PyV.arr [PyV.num 1], PyV.arr [PyV.num 1], 1, Option.none, Option.none,
      true⟩).2 5 Option.none 1 1 1 rfl rfl rfl rfl hne
